import Mathlib

/-!
Verification of the computational core of the satellite engineering /
satellite-SOC dashboard (src/app.py).

The program's random draws go through the process-global legacy numpy random
source, an MT19937 generator.  The shallow embedding makes that global state
explicit: every randomness-consuming function takes an MTState and returns the
updated state alongside its result, mirroring the side effects of
np.random.seed, np.random.randint and np.random.choice in the source.

Machine integers are Nat with explicit masking by 2^32 - 1 where the C
implementation works in uint32.  The 624-word uint32 key buffer of the
generator is packed into a single natural number, word i occupying bits
[32*i, 32*i + 32); mt_get and mt_set below are the array read and the
in-place array write of the C code under that packing.
-/

set_option maxRecDepth 100000

namespace SatSoc

/-- State of the MT19937 generator behind the numpy legacy global random
source: the 624-word key buffer (packed, word i at bits [32*i, 32*i+32)) and
the read position, mirroring the key and pos fields of mt19937_state in
numpy's C sources. -/
structure MTState where
  key : Nat
  pos : Nat
deriving Repr, DecidableEq

/-- Mask keeping the low 32 bits: 2^32 - 1. -/
def UINT32_MASK : Nat := 4294967295

/-- Word i of the packed key buffer (the array read key[i]). -/
def mt_get (k i : Nat) : Nat := (k >>> (32 * i)) &&& UINT32_MASK

/-- Overwrite word i of the packed key buffer with v, v < 2^32 (the in-place
array write key[i] = v): clear the old field, add the new one. -/
def mt_set (k i v : Nat) : Nat := k - (mt_get k i <<< (32 * i)) + (v <<< (32 * i))

/-- One iteration of the seeding loop of numpy mt19937_seed (the classic
init_genrand): append the running seed word as key[pos], then advance it by
seed = (1812433253 * (seed xor (seed >> 30)) + pos + 1) mod 2^32. -/
def mt19937_seed_step (acc : Nat × Nat) (pos : Nat) : Nat × Nat :=
  (acc.1 ||| (acc.2 <<< (32 * pos)),
   (1812433253 * (acc.2 ^^^ (acc.2 >>> 30)) + pos + 1) &&& UINT32_MASK)

/-- Seeding of the legacy global generator, as np.random.seed(n) does for a
plain integer seed (numpy mt19937_seed): fill the 624 key words from the
recurrence starting at the seed, and leave pos at 624 so the first draw
triggers a twist. -/
def mt19937_seed (seed : Nat) : MTState :=
  { key := ((List.range 624).foldl mt19937_seed_step (0, seed &&& UINT32_MASK)).1, pos := 624 }

/-- One in-place update of the MT19937 twist loop at index i: with
y = (key[i] and 0x80000000) or (key[(i+1) mod 624] and 0x7fffffff), write
key[i] = key[(i+397) mod 624] xor (y >> 1) xor (0x9908b0df if y odd else 0).
The loop is sequential, so indices below i already hold twisted words,
exactly as in the C loop. -/
def mt19937_twistStep (k : Nat) (i : Nat) : Nat :=
  let y := (mt_get k i &&& 2147483648) ||| (mt_get k ((i + 1) % 624) &&& 2147483647)
  mt_set k i ((mt_get k ((i + 397) % 624)) ^^^ (y >>> 1) ^^^ (if y % 2 = 1 then 2567483615 else 0))

/-- The MT19937 twist (numpy mt19937_gen): refill the whole key buffer. -/
def mt19937_gen (k : Nat) : Nat :=
  (List.range 624).foldl mt19937_twistStep k

/-- MT19937 output tempering. -/
def mt19937_temper (y : Nat) : Nat :=
  let y1 := y ^^^ (y >>> 11)
  let y2 := y1 ^^^ ((y1 <<< 7) &&& 2636928640)
  let y3 := y2 ^^^ ((y2 <<< 15) &&& 4022730752)
  y3 ^^^ (y3 >>> 18)

/-- Draw one 32-bit word (numpy mt19937_next): twist when the buffer is
exhausted, then temper the word at pos and advance pos. -/
def mt19937_next (s : MTState) : Nat × MTState :=
  let t := if s.pos ≥ 624 then { key := mt19937_gen s.key, pos := 0 } else s
  (mt19937_temper (mt_get t.key t.pos), { key := t.key, pos := t.pos + 1 })

/-- Smallest all-ones bitmask covering m (numpy gen_mask). -/
def gen_mask (m : Nat) : Nat :=
  let m1 := m ||| (m >>> 1)
  let m2 := m1 ||| (m1 >>> 2)
  let m3 := m2 ||| (m2 >>> 4)
  let m4 := m3 ||| (m3 >>> 8)
  let m5 := m4 ||| (m4 >>> 16)
  m5 ||| (m5 >>> 32)

/-- Masked rejection sampling of a value in [0, rng] from 32-bit draws (numpy
buffered_bounded_masked_uint32, the branch RandomState.randint takes for
ranges that fit in 32 bits).  The rejection loop is totalised by fuel; on the
streams this development evaluates the fuel is never exhausted, so the 0-fuel
branch (returning 0) is dead code. -/
def bounded_masked_uint32 (rng mask : Nat) : Nat → MTState → Nat × MTState
  | 0, s => (0, s)
  | fuel + 1, s =>
    let (v, s1) := mt19937_next s
    if v &&& mask ≤ rng then (v &&& mask, s1)
    else bounded_masked_uint32 rng mask fuel s1

/-- np.random.randint(low, high) of the legacy RandomState: a uniform integer
in [low, high) as off + v with off = low, v sampled by masked rejection with
rng = high - low - 1 (numpy random_bounded_uint64, which returns off
immediately when rng = 0 and otherwise uses the 32-bit masked path for the
ranges occurring here). -/
def np_randint (low high : Nat) (s : MTState) : Nat × MTState :=
  let rng := high - low - 1
  if rng = 0 then (low, s)
  else
    let (v, s1) := bounded_masked_uint32 rng (gen_mask rng) 1000000 s
    (low + v, s1)

/-- np.random.choice(options) for a plain list and size None: one uniform
index idx = randint(0, len(options)) and the element at idx. -/
def np_choice (options : List String) (s : MTState) : String × MTState :=
  let (idx, s1) := np_randint 0 options.length s
  (options.getD idx "", s1)

/-!  The SOC-side data model and generators (app.py lines 40-90).  -/

/-- A row of the mock threat table before the RiskScore column is added
(app.py lines 59-64). -/
structure ThreatRow where
  threat : String
  cia : String
  likelihood : Nat
  impact : Nat
deriving Repr, DecidableEq

/-- A row of the threat table including the derived RiskScore column
(app.py line 66). -/
structure ThreatRecord where
  threat : String
  cia : String
  likelihood : Nat
  impact : Nat
  riskScore : Nat
deriving Repr, DecidableEq

/-- The ten fixed threat names (app.py lines 42-53). -/
def threats : List String :=
  ["GNSS Spoofing", "Uplink Jamming", "Downlink Jamming", "Ground Station Intrusion",
   "Supply Chain Malware", "Sat Bus Exploit", "Command Injection", "Data Exfiltration",
   "Ransomware in Ground IT", "Insider Threat"]

/-- The three CIA dimensions (app.py line 55). -/
def cia_dim : List String := ["Confidentiality", "Integrity", "Availability"]

/-- generate_mock_sat_threat_data (app.py lines 40-67).  Takes the global
random state, seeds it to 42 (discarding the incoming state, as
np.random.seed(42) does), draws Likelihood then Impact with randint(1,5) for
each (threat, CIA) pair in row-major order, then adds the RiskScore column as
the elementwise product (line 66).  Returns the table together with the
mutated global state. -/
def generate_mock_sat_threat_data (_g : MTState) : List ThreatRecord × MTState :=
  let s0 := mt19937_seed 42
  let built := threats.foldl (fun (acc : List ThreatRow × MTState) (t : String) =>
    cia_dim.foldl (fun (acc2 : List ThreatRow × MTState) (dim : String) =>
      let (l, s1) := np_randint 1 5 acc2.2
      let (i, s2) := np_randint 1 5 s1
      (acc2.1 ++ [{ threat := t, cia := dim, likelihood := l, impact := i }], s2)) acc)
    ([], s0)
  (built.1.map (fun r =>
    { threat := r.threat, cia := r.cia, likelihood := r.likelihood, impact := r.impact,
      riskScore := r.likelihood * r.impact }), built.2)

/-- A row of the MITRE-like coverage table (app.py lines 85-89). -/
structure CoverageRecord where
  tactic : String
  technique : String
  coverage : String
deriving Repr, DecidableEq

/-- The six tactics (app.py lines 70-73). -/
def tactics : List String :=
  ["Reconnaissance", "Initial Access", "Execution", "Persistence",
   "Command & Control", "Impact"]

/-- The six techniques (app.py lines 74-81). -/
def techniques : List String :=
  ["RF Scanning", "Phishing Ground Staff", "SATCOM Protocol Abuse",
   "Backdoor in Ground SW", "C2 via Compromised GS", "Orbit/Attitude Manipulation"]

/-- generate_mitre_like_matrix (app.py lines 69-90): for each (tactic,
technique) pair in row-major order, one np.random.choice over the three
coverage levels, drawn from the incoming global state with NO seeding. -/
def generate_mitre_like_matrix (g : MTState) : List CoverageRecord × MTState :=
  tactics.foldl (fun (acc : List CoverageRecord × MTState) (t : String) =>
    techniques.foldl (fun (acc2 : List CoverageRecord × MTState) (tech : String) =>
      let (c, s1) := np_choice ["None", "Partial", "Good"] acc2.2
      (acc2.1 ++ [{ tactic := t, technique := tech, coverage := c }], s1)) acc)
    ([], g)

/-- A stand-in for the arbitrary state the process-global generator has when
the script starts; every script-level value below is independent of it
because the threat generator reseeds. -/
def initState : MTState := mt19937_seed 0

/-- The threat table the script builds on each rerun (app.py line 328). -/
def df_threats : List ThreatRecord := (generate_mock_sat_threat_data initState).1

/-- The global random state left behind by the threat generator. -/
def rng_after_threats : MTState := (generate_mock_sat_threat_data initState).2

/-- The coverage table the script builds on each rerun (app.py line 397); it
consumes the state left behind by the threat generator. -/
def df_mitre : List CoverageRecord := (generate_mitre_like_matrix rng_after_threats).1

/-- The global random state after the coverage generator. -/
def rng_after_mitre : MTState := (generate_mitre_like_matrix rng_after_threats).2

/-!
Segment filtering and the risk threshold (app.py lines 331-349), and the
display sort (line 390): high_risk.sort_values with the pandas default kind
(quicksort) and ascending False.  pandas nargsort reverses the values and the
index array, argsorts with numpy's introspective quicksort for the int64
column, maps through the reversed index and reverses the result; the numpy
argsort is the classic aquicksort: median-of-3 quicksort with an explicit
stack, insertion sort below 16 elements, heapsort beyond the depth limit.
All loops are totalised by fuel that is never exhausted on the lists this
development evaluates.
-/

/-- Swap of two entries of the index array. -/
def aswap (t : Array Nat) (i j : Nat) : Array Nat :=
  let a := t.getD i 0
  (t.setD i (t.getD j 0)).setD j a

/-- One-based accessor a[k] = tosort[lo + k - 1] of the heapsort. -/
def aheap_get (t : Array Nat) (lo k : Nat) : Nat := t.getD (lo + k - 1) 0

/-- One-based update of the heapsort index array. -/
def aheap_put (t : Array Nat) (lo k x : Nat) : Array Nat := t.setD (lo + k - 1) x

/-- Sift-down of numpy aheapsort: move tmp down from slot i while a child
holds a larger value (fuel bounds the index-doubling walk). -/
def aheap_sift (v : Array Nat) (lo n tmp : Nat) : Nat → Nat → Nat → Array Nat → Array Nat
  | 0, i, _, t => aheap_put t lo i tmp
  | fuel + 1, i, j, t =>
    if j ≤ n then
      let j1 := if j < n && v.getD (aheap_get t lo j) 0 < v.getD (aheap_get t lo (j + 1)) 0
        then j + 1 else j
      if v.getD tmp 0 < v.getD (aheap_get t lo j1) 0 then
        aheap_sift v lo n tmp fuel j1 (j1 + j1) (aheap_put t lo i (aheap_get t lo j1))
      else aheap_put t lo i tmp
    else aheap_put t lo i tmp

/-- Extraction phase of numpy aheapsort: repeatedly move the root behind the
shrinking heap and sift the displaced element down. -/
def aheap_extract (v : Array Nat) (lo : Nat) : Nat → Nat → Array Nat → Array Nat
  | 0, _, t => t
  | fuel + 1, n, t =>
    if n ≤ 1 then t
    else
      let tmp := aheap_get t lo n
      let t1 := aheap_put t lo n (aheap_get t lo 1)
      let t2 := aheap_sift v lo (n - 1) tmp 64 1 2 t1
      aheap_extract v lo fuel (n - 1) t2

/-- numpy aheapsort on the index subrange of length n starting at lo,
ordering indices by the values v: heapify then extract. -/
def aheapsort (v t : Array Nat) (lo n : Nat) : Array Nat :=
  let t1 := (List.range (n / 2)).foldl (fun tt idx =>
    let l := n / 2 - idx
    aheap_sift v lo n (aheap_get tt lo l) 64 l (l * 2) tt) t
  aheap_extract v lo n n t1

/-- Inner shifting loop of the insertion sort: with fuel = pj - pl, shift
larger values right until the slot for vi is found. -/
def ainsert_inner (v : Array Nat) (vp vi : Nat) : Nat → Nat → Array Nat → Array Nat
  | 0, pj, t => t.setD pj vi
  | fuel + 1, pj, t =>
    if vp < v.getD (t.getD (pj - 1) 0) 0 then
      ainsert_inner v vp vi fuel (pj - 1) (t.setD pj (t.getD (pj - 1) 0))
    else t.setD pj vi

/-- Insertion sort of numpy aquicksort on the inclusive index range
[pl, pr]. -/
def ainsertion_sort (v t : Array Nat) (pl pr : Nat) : Array Nat :=
  (List.range' (pl + 1) (pr + 1 - (pl + 1))).foldl (fun tt pi =>
    let vi := tt.getD pi 0
    ainsert_inner v (v.getD vi 0) vi (pi - pl) pi tt) t

/-- Upward scan of the Hoare partition: the first index above pi whose value
is not below the pivot (the do-increment-while-less loop). -/
def scan_up (v t : Array Nat) (vp : Nat) : Nat → Nat → Nat
  | 0, pi => pi
  | fuel + 1, pi =>
    if v.getD (t.getD (pi + 1) 0) 0 < vp then scan_up v t vp fuel (pi + 1) else pi + 1

/-- Downward scan of the Hoare partition: the first index below pj whose
value is not above the pivot (the do-decrement-while-greater loop). -/
def scan_down (v t : Array Nat) (vp : Nat) : Nat → Nat → Nat
  | 0, pj => pj
  | fuel + 1, pj =>
    if vp < v.getD (t.getD (pj - 1) 0) 0 then scan_down v t vp fuel (pj - 1) else pj - 1

/-- Swapping loop of the Hoare partition; returns the array and the crossing
point pi. -/
def apart_loop (v : Array Nat) (vp : Nat) : Nat → Nat → Nat → Array Nat → Array Nat × Nat
  | 0, pi, _, t => (t, pi)
  | fuel + 1, pi, pj, t =>
    let pi1 := scan_up v t vp 1000 pi
    let pj1 := scan_down v t vp 1000 pj
    if pi1 ≥ pj1 then (t, pi1)
    else apart_loop v vp fuel pi1 pj1 (aswap t pi1 pj1)

/-- Main loop of numpy aquicksort: explicit stack of index ranges,
median-of-3 pivot, partition, continue with the smaller side and push the
larger; insertion sort below 16 elements, heapsort once the depth budget is
spent. -/
def aquicksort_loop (v : Array Nat) : Nat → Array Nat → List (Nat × Nat) → Nat → Nat → Int →
    Array Nat
  | 0, t, _, _, _, _ => t
  | fuel + 1, t, stack, pl, pr, depth =>
    if pr - pl > 15 then
      if depth < 0 then
        let t1 := aheapsort v t pl (pr - pl + 1)
        match stack with
        | [] => t1
        | (l, r) :: rest => aquicksort_loop v fuel t1 rest l r depth
      else
        let pm := pl + (pr - pl) / 2
        let t1 := if v.getD (t.getD pm 0) 0 < v.getD (t.getD pl 0) 0 then aswap t pm pl else t
        let t2 := if v.getD (t1.getD pr 0) 0 < v.getD (t1.getD pm 0) 0 then aswap t1 pr pm else t1
        let t3 := if v.getD (t2.getD pm 0) 0 < v.getD (t2.getD pl 0) 0 then aswap t2 pm pl else t2
        let vp := v.getD (t3.getD pm 0) 0
        let t4 := aswap t3 pm (pr - 1)
        let (t5, pi) := apart_loop v vp 1000 pl (pr - 1) t4
        let t6 := aswap t5 pi (pr - 1)
        if pi - pl < pr - pi then
          aquicksort_loop v fuel t6 ((pi + 1, pr) :: stack) pl (pi - 1) (depth - 1)
        else
          aquicksort_loop v fuel t6 ((pl, pi - 1) :: stack) (pi + 1) pr (depth - 1)
    else
      let t1 := ainsertion_sort v t pl pr
      match stack with
      | [] => t1
      | (l, r) :: rest => aquicksort_loop v fuel t1 rest l r depth

/-- Index of the highest set bit (numpy npy_get_msb): the halving loop,
totalised by fuel 64 as in the C code's word width. -/
def npy_get_msb_loop : Nat → Nat → Nat
  | 0, _ => 0
  | fuel + 1, n => if n ≥ 2 then npy_get_msb_loop fuel (n / 2) + 1 else 0

/-- Index of the highest set bit of n. -/
def npy_get_msb (n : Nat) : Nat := npy_get_msb_loop 64 n

/-- numpy argsort with the default quicksort kind on an int64 column: the
index permutation the introsort produces (ties NOT guaranteed in original
order). -/
def np_argsort (vals : List Nat) : List Nat :=
  let n := vals.length
  if n = 0 then []
  else
    (aquicksort_loop vals.toArray (4 * n + 16) (List.range n).toArray [] 0 (n - 1)
      (Int.ofNat (npy_get_msb n * 2))).toList

/-- pandas nargsort for a single int64 column with ascending False and no
NaNs: reverse the values, argsort them, map through the reversed original
indices, and reverse the result.  Returns the row indexer the DataFrame is
reordered by. -/
def sort_values_desc_indexer (scores : List Nat) : List Nat :=
  let n := scores.length
  ((np_argsort scores.reverse).map (fun j => n - 1 - j)).reverse

/-- Placeholder record for the out-of-bounds lookup branch that concrete
evaluation never takes. -/
def default_threat : ThreatRecord :=
  { threat := "", cia := "", likelihood := 0, impact := 0, riskScore := 0 }

/-- Risk-threshold filter (app.py line 349): the rows whose RiskScore is at
least the threshold, in table order. -/
def high_risk (df : List ThreatRecord) (threshold : Nat) : List ThreatRecord :=
  df.filter (fun r => threshold ≤ r.riskScore)

/-- The displayed high-risk table (app.py line 390): high_risk.sort_values on
the RiskScore column, ascending False, default quicksort kind. -/
def high_risk_sorted (df : List ThreatRecord) (threshold : Nat) : List ThreatRecord :=
  let hr := high_risk df threshold
  (sort_values_desc_indexer (hr.map (fun r => r.riskScore))).map
    (fun i => hr.getD i default_threat)

/-- The names the Space Segment filter keeps (app.py lines 332-334). -/
def space_segment_names : List String :=
  ["Sat Bus Exploit", "Command Injection", "Data Exfiltration"]

/-- The names the Ground Segment filter keeps (app.py lines 337-339). -/
def ground_segment_names : List String :=
  ["Ground Station Intrusion", "Ransomware in Ground IT", "Insider Threat"]

/-- The names the Link Segment filter keeps (app.py lines 342-344). -/
def link_segment_names : List String :=
  ["GNSS Spoofing", "Uplink Jamming", "Downlink Jamming"]

/-- Segment filtering (app.py lines 331-347): keep the rows whose Threat is
in the selected segment's name set; any other selector (the selectbox offers
only All besides the three segments) keeps the whole table. -/
def df_seg (segment : String) : List ThreatRecord :=
  if segment = "Space Segment" then
    df_threats.filter (fun r => space_segment_names.contains r.threat)
  else if segment = "Ground Segment" then
    df_threats.filter (fun r => ground_segment_names.contains r.threat)
  else if segment = "Link Segment" then
    df_threats.filter (fun r => link_segment_names.contains r.threat)
  else df_threats

/-- The four selectbox options (app.py lines 315-318). -/
def segment_options : List String :=
  ["All", "Space Segment", "Ground Segment", "Link Segment"]

/-- The coverage_map dict (app.py line 399) as applied by Series.map: the
three known levels map to 0, 1, 2 and anything else to a missing value. -/
def coverage_map (c : String) : Option Nat :=
  if c = "None" then some 0
  else if c = "Partial" then some 1
  else if c = "Good" then some 2
  else none

/-- Lexicographic codepoint comparison of strings, the order pandas sorts
label values by. -/
def str_le_aux : List Nat → List Nat → Bool
  | [], _ => true
  | _ :: _, [] => false
  | x :: xs, y :: ys => if x < y then true else if y < x then false else str_le_aux xs ys

/-- String comparison on the codepoint sequences. -/
def str_le (a b : String) : Bool := str_le_aux (a.data.map Char.toNat) (b.data.map Char.toNat)

/-- Insert into a sorted list of labels. -/
def insert_sorted (x : String) : List String → List String
  | [] => [x]
  | y :: ys => if str_le x y then x :: y :: ys else y :: insert_sorted x ys

/-- Deduplicate then sort lexicographically, as pandas sorts the labels of a
pivot table. -/
def sorted_unique (l : List String) : List String :=
  (l.foldl (fun acc x => if acc.contains x then acc else acc ++ [x]) []).foldr insert_sorted []

/-- Row labels of the pivot table (app.py lines 402-407): the distinct
Technique values, sorted. -/
def pivot_index (df : List CoverageRecord) : List String :=
  sorted_unique (df.map (fun r => r.technique))

/-- Column labels of the pivot table: the distinct Tactic values, sorted. -/
def pivot_columns (df : List CoverageRecord) : List String :=
  sorted_unique (df.map (fun r => r.tactic))

/-- One cell of the pivot table: the mean of the CoverageScore values of the
rows matching (Technique, Tactic), none when no row matches (aggfunc mean
over the mapped CoverageScore column, app.py lines 399-407). -/
def pivot_cell (df : List CoverageRecord) (tech tac : String) : Option ℚ :=
  let vals := (df.filter (fun r => r.technique == tech && r.tactic == tac)).filterMap
    (fun r => coverage_map r.coverage)
  match vals with
  | [] => none
  | _ => some ((vals.map (fun n => (n : ℚ))).sum / vals.length)

/-- Check that a table is ordered by RiskScore descending (each adjacent
pair non-increasing). -/
def sorted_desc_by_risk : List ThreatRecord → Bool
  | [] => true
  | [_] => true
  | a :: b :: rest => (b.riskScore ≤ a.riskScore) && sorted_desc_by_risk (b :: rest)

/-- The stable descending sort the spec asks of the high-risk view: RiskScore
descending with ties kept in original order.  Stated from the spec's words to
compare against the pandas/numpy sort the source actually performs. -/
def spec_stable_sorted_desc (l : List ThreatRecord) : List ThreatRecord :=
  List.insertionSort (fun a b => b.riskScore ≤ a.riskScore) l

/-!
Orbital model and link budget (app.py lines 12-34 and the call sites at
lines 154-156).  The floating-point formulas are embedded with their
real-number semantics.
-/

noncomputable section

/-- Earth gravitational parameter, 3.986004418e14 m^3/s^2 (app.py line 12). -/
def MU_EARTH : ℝ := 398600441800000

/-- Earth radius in meters (app.py line 13). -/
def R_EARTH : ℝ := 6371000

/-- Orbital period for a circular orbit of semi-major axis a
(app.py lines 15-17). -/
def kepler_period (semi_major_axis_m : ℝ) : ℝ :=
  2 * Real.pi * Real.sqrt (semi_major_axis_m ^ 3 / MU_EARTH)

/-- Orbital velocity for a circular orbit of semi-major axis a
(app.py lines 19-21). -/
def orbital_velocity (semi_major_axis_m : ℝ) : ℝ :=
  Real.sqrt (MU_EARTH / semi_major_axis_m)

/-- Period as a function of altitude above the surface in km, as computed at
the call site (app.py lines 154-155): a = R_EARTH + altitude_km * 1000. -/
def period (altitude_km : ℝ) : ℝ := kepler_period (R_EARTH + altitude_km * 1000)

/-- Velocity as a function of altitude in km (app.py lines 154, 156). -/
def velocity (altitude_km : ℝ) : ℝ := orbital_velocity (R_EARTH + altitude_km * 1000)

/-- generate_orbit_3d (app.py lines 23-29): r = R_EARTH + altitude_km * 1000,
theta = np.linspace(0, 2 pi, points), so theta_i = i * (2 pi / (points - 1))
with the endpoint included, x = r cos theta, y = r sin theta, z = zeros.
The source's default for points is 400.  Returns the three coordinate
sequences. -/
def generate_orbit_3d (altitude_km : ℝ) (points : Nat) : List ℝ × List ℝ × List ℝ :=
  let r := R_EARTH + altitude_km * 1000
  let theta := (List.range points).map (fun (i : Nat) => (i : ℝ) * (2 * Real.pi / ((points : ℝ) - 1)))
  (theta.map (fun θ => r * Real.cos θ), theta.map (fun θ => r * Real.sin θ),
   theta.map (fun _ => (0 : ℝ)))

/-- satellite_link_budget (app.py lines 31-34): the linear dB combination. -/
def satellite_link_budget (eirp_dbw path_loss_db rx_gain_db sys_loss_db noise_figure_db : ℝ) :
    ℝ :=
  eirp_dbw - path_loss_db + rx_gain_db - sys_loss_db - noise_figure_db

end


/-!
Concrete values.  The two packed key buffers below are the MT19937 state
right after seeding with 42 and right after the subsequent twist; the record
tables are the resulting threat and coverage tables.  Each is tied to the
definitions above by the bridge lemmas that follow, so every later proof can
work with flat literals.
-/

/-- The packed key buffer produced by seeding with 42. -/
def mt_key42_seeded : Nat :=
  576530615885411601245301592000665333995298971017035641151605743016014334390650357488162233615613294480555991590699430476495171072426114313754971974907122608682506805825645685212013539160435067384252499936084402767867918598201238710655243095901560006202250696161753671504002112942893302852654704316082246928744477343509059895338253102415589992057604721980525492895235696084227080387663265009553307542345390327279676811451023833039642822734639964143263747926140075292317849149026937235167824813083534485045872854420312077309261199897317801034297595956824327845257587766424881288040833618951604830463528855869001151680156107922877149238558221011630989560841929541854241712001991022762936785363997391915822090332985557480211216674160250015202883733458406524908329036638929702735084197423288972025337476268141826851413799841232297255920517739888578376882611916118372671888366476747290151457462026314683470054588642315790413163736484543351859775203916002114474162800537206645405518601810316749074949333578090844588203126659609298516433249492992629888003282476073676981875730151689402516080776808364459851846498640479442849387056034090610928754206039233078643938276139263965744111752134625786991488662909952376821456751292053964024999417019856270760980261405620319177191873948693620890870052752156252998051666553615821281664364669997925700235478436079979984333918991246971954258095869173048058234857599241416042376233471504600166522995501129680413767190782405824437152132043448138580964774433144699321440165335427127209717876907803827745323706386024551518531532417674071738625276513880615056749641745155383328206239052382868050030922288875137978955405655433508720719321653328684792107812743380481418392596218371917343819325269019518354835748397733338013129260687207177613392826042874394007359750610712519235007903759930685281018907329762068058792520029493116773238939716993790495011749111185393380500044026963359718309069644288715393930978335965268466170730885859974888180628595358370827339639823491041746583009682675355648804933723638577761480056317817597308220742269167426729595665732030506356460883927938697317510016392211302666254828689244375938108745263786691814635707011096663667077745888598210413360812888798365857248289428238709709617049337295154831718161124148115350121187853089118581950844054128009285439896965132893557434066426143552091078035395569746518313284303574136780256546453528718040719664452518445663927454987913833822061947348244659034788076593508691171709923225688133045270829160082099889126937609640862937637915508140791743875956528569809133908327340939669524864131745337286937500639354896642097082407829129341261009545051058983154571153143911518880377729987656019209591634659688616263228504052223514885823495028162495626980696404254891007155226372356430400496436157876884176534684557681014992964032139485733782760420159769142338696408877985805929676972891306926380320480004214641757919869289477596062845756705950031601188160608734991829696112694591825987042582950147160452585287086366174568482377041337089764810331549414590942258931890956566577178819723769280488458085825034655198390614948926755792251809293136019040081876291972424907172822817984364161517519075418927244049724827041492646698453993698076615705139915395054664346096616556160406377813543234659063888596846382750095824799694623742061750291684920115971784782078560989403596370524614347276164241605123667835879083535158872870164968261089553575251494653192440479520335412801547872445680928005403846256484933052779175403357054941875051953819176618666973714519554628620392047064960854204447761602940409717691530809952108883722192723188826652864240841118627195225147963556844790953619387072449715202613526531282336699384964713072451395754541031476685575012283244577203893934978389763762420497867155077707739521019035485513416267596975055256444002561883189166871871374842193903448065694652971479008932048654131288063467951864210467111477764433677912084992399844834368930274909741859259373525190661957190283481155242401323088018498417661075073010547058873892089249560176964837795394641402933305939740181657689078783459429100613780422770471385284718103889345695986598082504668096266986929077658924425140996460108187141861683494003838945727117147269177323036833131313744659184521630225195120982922969339144879692356594932725614736589889818750116477983762340809374060249792704865178365402079888880379473559956217270709353444368702348946223411253167824643566666490479300262821219555209151629146226341897681306299315557135933660059194598636824979554035810435833691247034050187543698659274714105067716878390994055525911851388572832575206421031636561483470769624984265007992879592618753241425010971675260138923744014321442702131254895735350877262068863015852818562072903109325703380393268627045938861568523531594779565116782872941853507827692720592167776316248168360469272418790679734393061408568553053357964494912475596762492078443114385185284527989943361623082368246857944170780843100822924739236019216556418171458774574394594633478214702903329384711607503974018984189451827491175784099728025064036647353016639756941504503226728501601179289990929589262161387821548294805608962193685612504023238007684667903393411980418344181922511264870372693285776899404437888913701142579742003198140322172336858450490003661794401764492173574725811311191379056608299755405937922636507829236316349719727921588119967351708164326995747764394027208469570532677042524274031669609284746672476370030621873726015332492127182350167881689144466599768948591555313416704885995250573382346240736835820431855451475094558791080750539050249068880034991355204503839354885083747123823723245502642373253630477229923198626520959522693214038997716016310250718896576718419862981480422427348373285123766350393001878454808325770790574989777543852516122485871353792096758392688585067036156831618991942060649920659546112119519746245116332965819387467203815397398029535214073760743378834661045186738820845323059583629865978902642870686398198449726167304529442128862420212610611151896618

/-- The packed key buffer after the first twist of the seeded buffer. -/
def mt_key42_twisted : Nat :=
  88210577066905824722412853722496305771247353883827453546773584536697424533770738315658374241155970794079945574700805751543291235639101646448891365852483940677376751218100605001941351796271473349678518388329372823262059519212641323322033731900658683873217697466266552651110032789915644959018230838095452037387271891910182329538493717860322525456134406007717674031468634602196254026212510462832037682098822603916429178165745104476944103394194675148892848262015821911836285936510532452238484269317298821447979489067891108251695296220830733534154489657868322773479909639097194161839386511904989952995198000212007232484647142847161021110586720077333685476655616928630811340563055174067177020010113971076226188597629434001298306129386335604141651299179654919536357148405560932886916294653451831940075659354231011550947668191231504506143735852468909559724540264552618919660346940240149637808638969212385395257125322965230412692578247695144061884587592339366319535888874538693137248150996100312824467348825732574845684053566378842732126943504233753238038289896657414787445124079626219279644021514357995842464176782267940717135759763565554456833741525972979087686602754284454849632499012449334010685327007309504727552401577150293200259099518867444043189645945925846788254248927486904522251048892172020050667368824756905796136234315504160515920735347029495731149872038562772752115816832919254797604470294671491057080291889578712361986090811609322329753109153714674696512521490689540754562341203842177429181417894661627438078444532086161106816380677745179519292386484897804877851034393107164678483616196785520754151321320859384697067246413773766416166316225961413754102881475143522369817760671888112628217257048069754580083991737587773021138866279141220744056854905966855752850580509239981397764316648479424480930422647138790585928093655111018765086581222491988341243047726771604639085002608714352291514274953220720261229217257604771630063527714680090721597889024536617204339377009383817584634572799506184566207077881940276571444411078613804735853921087555477233498450407851925012700942132692842446994460504253177153571318595389962664218223337346962258601665184707687340714931253309032507051579471677930759338036956369624736130106937739782789564079705261060931519115753956081274749715166201553916477143396526922591825305910414013340770995595490957383933064503260776207037607024669895906418707455935422716696030221787035752848538617202609203007439812719943778162863844288310203397418103219765493262695938571586328570503203455738678487482636609397210386405358387331438374490113958438177572281763461391222047762203965500730016172990856460947141681350291315342522145592333530872919319925184069071557920690093951188850044134494935761965919428662579764042085609186371054249151160019794297049642972839199434471439219273991518387754706919290060025268864692565171490837697288444209569627480558108200374803033810880350719045984408376407920702658222086298506825999713635267416825358780688291162536498181791368114441767498647120193102024047097689587516721573669213952897294649922925452054248031155517783077319312606094142662227152295336315017797488591654087790514900057348359816337332786491915062249854234241923420583932256896159683775544265656483111444936046672441051837379384519382240413155561432193957321378546413490856936430846370483738243476438685827322247618167874435415437459377020237278389390002096755428832753588166552589217510757091762720585485296204155730967227269982664356805961393922608866451103072189222663677915330420949377048483825301298160999831311302266327350526336069403704392850609681586439578449980889129030706026064493961525945805505150747774734968928517611548665587905401959808497576604846058825505505165814545815817722848720248386968438259026247742496219443178993048226758197468072700752023455884056005344014119264577721536268612674584389281876629199580663952098218750671549156854980283014449931931753612048571714371093161986453757045692330697628006584069279532065734503738922521511716896467138022256224918842636580889727461710626046944496774982276455718046755055165013060719040125509665985283983060451173331288577294517876980372005261883158376031623889015531276267700635196565058882230779111259708408980363432072272556349347438885987766755878563344478778175695613757730565504748469657266151001886606647559265688743926103743519316486867386603044139137570396721807724402622067964098369942210451177826383821788577324378027687088658650485112844849600116100228035755477312047287613175465854073080205631876364320954271938152438248002156302299148885227299430536272615122448337535141967086244587736898539840149953971972900721197164739265510735501366950686251952603976745637196065269393715426518233276992754601799756794496576864280729730565052492144757218865268192856650053467894444137409530299153984932140802917401660883289407284829956094655696381197761402522563707908213751946853061480922203735584128214147337505631615524191383990631822384915264278496074383445805118225618134774387547676190838437471948377276163596752469542921945986019209812244955315845967272614388409528561710939043126430156331413201333432519349075335611803733131688440031351236340609915255327937556208808639759267020543427031246065123783895436334443118925087667798509395124514660034055577311888331777887588237774010276230000188518079572917652795743482422451015853779488913686618507179826091151701809678565912114274036202190075534712333734365896518323698987577483755533995444243571059934700171043213692551532466545033747642908476581616310318782813061166618530035573621205020188572589320786548381730370557218291878079554251203528483721822547040660220915985984667166994205097736563522695825915369685492021988672647733983797576340647807302814068500011120569357590832951199758150835541031114209940966707770515324605924872778190085890982074450977234547553762530084313376750590727797735246482837267991090906918465651926584108497919558189098064459288569046254430142529018885566502803699885369800820375706612715865621626367394202577781067054499307043875139

/-- The threat table generated from seed 42 (computed value of
generate_mock_sat_threat_data, established by gen_threat_eq below). -/
def df_threats_table : List ThreatRecord :=
  [⟨"GNSS Spoofing", "Confidentiality", 3, 4, 12⟩,
   ⟨"GNSS Spoofing", "Integrity", 1, 3, 3⟩,
   ⟨"GNSS Spoofing", "Availability", 3, 4, 12⟩,
   ⟨"Uplink Jamming", "Confidentiality", 1, 1, 1⟩,
   ⟨"Uplink Jamming", "Integrity", 3, 2, 6⟩,
   ⟨"Uplink Jamming", "Availability", 3, 3, 9⟩,
   ⟨"Downlink Jamming", "Confidentiality", 3, 3, 9⟩,
   ⟨"Downlink Jamming", "Integrity", 4, 1, 4⟩,
   ⟨"Downlink Jamming", "Availability", 4, 4, 16⟩,
   ⟨"Ground Station Intrusion", "Confidentiality", 4, 3, 12⟩,
   ⟨"Ground Station Intrusion", "Integrity", 2, 1, 2⟩,
   ⟨"Ground Station Intrusion", "Availability", 2, 4, 8⟩,
   ⟨"Supply Chain Malware", "Confidentiality", 4, 2, 8⟩,
   ⟨"Supply Chain Malware", "Integrity", 2, 2, 4⟩,
   ⟨"Supply Chain Malware", "Availability", 4, 4, 16⟩,
   ⟨"Sat Bus Exploit", "Confidentiality", 1, 1, 1⟩,
   ⟨"Sat Bus Exploit", "Integrity", 4, 2, 8⟩,
   ⟨"Sat Bus Exploit", "Availability", 2, 1, 2⟩,
   ⟨"Command Injection", "Confidentiality", 4, 1, 4⟩,
   ⟨"Command Injection", "Integrity", 1, 3, 3⟩,
   ⟨"Command Injection", "Availability", 3, 3, 9⟩,
   ⟨"Data Exfiltration", "Confidentiality", 2, 4, 8⟩,
   ⟨"Data Exfiltration", "Integrity", 4, 4, 16⟩,
   ⟨"Data Exfiltration", "Availability", 4, 3, 12⟩,
   ⟨"Ransomware in Ground IT", "Confidentiality", 2, 2, 4⟩,
   ⟨"Ransomware in Ground IT", "Integrity", 3, 2, 6⟩,
   ⟨"Ransomware in Ground IT", "Availability", 3, 4, 12⟩,
   ⟨"Insider Threat", "Confidentiality", 3, 4, 12⟩,
   ⟨"Insider Threat", "Integrity", 4, 1, 4⟩,
   ⟨"Insider Threat", "Availability", 3, 1, 3⟩]

/-- The coverage table generated right after the threat table (computed
value, established by mitre_run1_eq below). -/
def df_mitre_table : List CoverageRecord :=
  [⟨"Reconnaissance", "RF Scanning", "Good"⟩,
   ⟨"Reconnaissance", "Phishing Ground Staff", "Good"⟩,
   ⟨"Reconnaissance", "SATCOM Protocol Abuse", "None"⟩,
   ⟨"Reconnaissance", "Backdoor in Ground SW", "None"⟩,
   ⟨"Reconnaissance", "C2 via Compromised GS", "Good"⟩,
   ⟨"Reconnaissance", "Orbit/Attitude Manipulation", "Partial"⟩,
   ⟨"Initial Access", "RF Scanning", "None"⟩,
   ⟨"Initial Access", "Phishing Ground Staff", "Partial"⟩,
   ⟨"Initial Access", "SATCOM Protocol Abuse", "Partial"⟩,
   ⟨"Initial Access", "Backdoor in Ground SW", "Partial"⟩,
   ⟨"Initial Access", "C2 via Compromised GS", "None"⟩,
   ⟨"Initial Access", "Orbit/Attitude Manipulation", "Partial"⟩,
   ⟨"Execution", "RF Scanning", "None"⟩,
   ⟨"Execution", "Phishing Ground Staff", "Partial"⟩,
   ⟨"Execution", "SATCOM Protocol Abuse", "Good"⟩,
   ⟨"Execution", "Backdoor in Ground SW", "Good"⟩,
   ⟨"Execution", "C2 via Compromised GS", "None"⟩,
   ⟨"Execution", "Orbit/Attitude Manipulation", "Good"⟩,
   ⟨"Persistence", "RF Scanning", "Good"⟩,
   ⟨"Persistence", "Phishing Ground Staff", "Partial"⟩,
   ⟨"Persistence", "SATCOM Protocol Abuse", "None"⟩,
   ⟨"Persistence", "Backdoor in Ground SW", "Partial"⟩,
   ⟨"Persistence", "C2 via Compromised GS", "Partial"⟩,
   ⟨"Persistence", "Orbit/Attitude Manipulation", "Partial"⟩,
   ⟨"Command & Control", "RF Scanning", "Partial"⟩,
   ⟨"Command & Control", "Phishing Ground Staff", "Partial"⟩,
   ⟨"Command & Control", "SATCOM Protocol Abuse", "Partial"⟩,
   ⟨"Command & Control", "Backdoor in Ground SW", "Partial"⟩,
   ⟨"Command & Control", "C2 via Compromised GS", "None"⟩,
   ⟨"Command & Control", "Orbit/Attitude Manipulation", "Good"⟩,
   ⟨"Impact", "RF Scanning", "Partial"⟩,
   ⟨"Impact", "Phishing Ground Staff", "Partial"⟩,
   ⟨"Impact", "SATCOM Protocol Abuse", "Partial"⟩,
   ⟨"Impact", "Backdoor in Ground SW", "Partial"⟩,
   ⟨"Impact", "C2 via Compromised GS", "Partial"⟩,
   ⟨"Impact", "Orbit/Attitude Manipulation", "Partial"⟩]

/-- The coverage table a second, successive invocation of the coverage
generator produces (computed value, established by mitre_run2_eq below). -/
def df_mitre_table2 : List CoverageRecord :=
  [⟨"Reconnaissance", "RF Scanning", "Good"⟩,
   ⟨"Reconnaissance", "Phishing Ground Staff", "Good"⟩,
   ⟨"Reconnaissance", "SATCOM Protocol Abuse", "Partial"⟩,
   ⟨"Reconnaissance", "Backdoor in Ground SW", "Good"⟩,
   ⟨"Reconnaissance", "C2 via Compromised GS", "None"⟩,
   ⟨"Reconnaissance", "Orbit/Attitude Manipulation", "Partial"⟩,
   ⟨"Initial Access", "RF Scanning", "None"⟩,
   ⟨"Initial Access", "Phishing Ground Staff", "None"⟩,
   ⟨"Initial Access", "SATCOM Protocol Abuse", "Partial"⟩,
   ⟨"Initial Access", "Backdoor in Ground SW", "Good"⟩,
   ⟨"Initial Access", "C2 via Compromised GS", "None"⟩,
   ⟨"Initial Access", "Orbit/Attitude Manipulation", "Partial"⟩,
   ⟨"Execution", "RF Scanning", "None"⟩,
   ⟨"Execution", "Phishing Ground Staff", "None"⟩,
   ⟨"Execution", "SATCOM Protocol Abuse", "None"⟩,
   ⟨"Execution", "Backdoor in Ground SW", "None"⟩,
   ⟨"Execution", "C2 via Compromised GS", "Good"⟩,
   ⟨"Execution", "Orbit/Attitude Manipulation", "None"⟩,
   ⟨"Persistence", "RF Scanning", "None"⟩,
   ⟨"Persistence", "Phishing Ground Staff", "None"⟩,
   ⟨"Persistence", "SATCOM Protocol Abuse", "Good"⟩,
   ⟨"Persistence", "Backdoor in Ground SW", "None"⟩,
   ⟨"Persistence", "C2 via Compromised GS", "None"⟩,
   ⟨"Persistence", "Orbit/Attitude Manipulation", "Good"⟩,
   ⟨"Command & Control", "RF Scanning", "Good"⟩,
   ⟨"Command & Control", "Phishing Ground Staff", "Good"⟩,
   ⟨"Command & Control", "SATCOM Protocol Abuse", "None"⟩,
   ⟨"Command & Control", "Backdoor in Ground SW", "Good"⟩,
   ⟨"Command & Control", "C2 via Compromised GS", "Good"⟩,
   ⟨"Command & Control", "Orbit/Attitude Manipulation", "None"⟩,
   ⟨"Impact", "RF Scanning", "Good"⟩,
   ⟨"Impact", "Phishing Ground Staff", "None"⟩,
   ⟨"Impact", "SATCOM Protocol Abuse", "Partial"⟩,
   ⟨"Impact", "Backdoor in Ground SW", "Good"⟩,
   ⟨"Impact", "C2 via Compromised GS", "Partial"⟩,
   ⟨"Impact", "Orbit/Attitude Manipulation", "None"⟩]

/-- The Space Segment slice of the threat table (computed value). -/
def df_seg_space_table : List ThreatRecord :=
  [⟨"Sat Bus Exploit", "Confidentiality", 1, 1, 1⟩,
   ⟨"Sat Bus Exploit", "Integrity", 4, 2, 8⟩,
   ⟨"Sat Bus Exploit", "Availability", 2, 1, 2⟩,
   ⟨"Command Injection", "Confidentiality", 4, 1, 4⟩,
   ⟨"Command Injection", "Integrity", 1, 3, 3⟩,
   ⟨"Command Injection", "Availability", 3, 3, 9⟩,
   ⟨"Data Exfiltration", "Confidentiality", 2, 4, 8⟩,
   ⟨"Data Exfiltration", "Integrity", 4, 4, 16⟩,
   ⟨"Data Exfiltration", "Availability", 4, 3, 12⟩]

/-- The Ground Segment slice of the threat table (computed value). -/
def df_seg_ground_table : List ThreatRecord :=
  [⟨"Ground Station Intrusion", "Confidentiality", 4, 3, 12⟩,
   ⟨"Ground Station Intrusion", "Integrity", 2, 1, 2⟩,
   ⟨"Ground Station Intrusion", "Availability", 2, 4, 8⟩,
   ⟨"Ransomware in Ground IT", "Confidentiality", 2, 2, 4⟩,
   ⟨"Ransomware in Ground IT", "Integrity", 3, 2, 6⟩,
   ⟨"Ransomware in Ground IT", "Availability", 3, 4, 12⟩,
   ⟨"Insider Threat", "Confidentiality", 3, 4, 12⟩,
   ⟨"Insider Threat", "Integrity", 4, 1, 4⟩,
   ⟨"Insider Threat", "Availability", 3, 1, 3⟩]

/-- The Link Segment slice of the threat table (computed value). -/
def df_seg_link_table : List ThreatRecord :=
  [⟨"GNSS Spoofing", "Confidentiality", 3, 4, 12⟩,
   ⟨"GNSS Spoofing", "Integrity", 1, 3, 3⟩,
   ⟨"GNSS Spoofing", "Availability", 3, 4, 12⟩,
   ⟨"Uplink Jamming", "Confidentiality", 1, 1, 1⟩,
   ⟨"Uplink Jamming", "Integrity", 3, 2, 6⟩,
   ⟨"Uplink Jamming", "Availability", 3, 3, 9⟩,
   ⟨"Downlink Jamming", "Confidentiality", 3, 3, 9⟩,
   ⟨"Downlink Jamming", "Integrity", 4, 1, 4⟩,
   ⟨"Downlink Jamming", "Availability", 4, 4, 16⟩]

/-- Seeding with 42 yields the literal packed buffer, with pos = 624. -/
theorem seed42_eq : mt19937_seed 42 = ⟨mt_key42_seeded, 624⟩ := rfl

/-- Twisting the seeded buffer yields the literal twisted buffer. -/
theorem twist42_eq : mt19937_gen mt_key42_seeded = mt_key42_twisted := rfl

/-- The first randint(1,5) drawn from the freshly seeded state: it triggers
the twist and returns 3, leaving the twisted buffer at pos 1. -/
theorem randint_first :
    np_randint 1 5 ⟨mt_key42_seeded, 624⟩ = (3, ⟨mt_key42_twisted, 1⟩) := rfl

/-- The threat generator, from any incoming global state, returns the literal
30-row table and leaves the global generator at the twisted buffer, pos 60. -/
theorem gen_threat_eq (g : MTState) :
    generate_mock_sat_threat_data g = (df_threats_table, ⟨mt_key42_twisted, 60⟩) := by
  unfold generate_mock_sat_threat_data
  rw [seed42_eq]
  dsimp only [threats, cia_dim, List.foldl_cons, List.foldl_nil]
  rw [randint_first]
  rfl

/-- The script-level threat table as a literal. -/
theorem df_threats_eq : df_threats = df_threats_table := by
  unfold df_threats
  rw [gen_threat_eq]

/-- The global random state after the threat generator, as a literal. -/
theorem rng_after_threats_eq : rng_after_threats = ⟨mt_key42_twisted, 60⟩ := by
  unfold rng_after_threats
  rw [gen_threat_eq]

/-- The coverage generator run from the post-threat state: the literal
36-row table, consuming the stream up to pos 109. -/
theorem mitre_run1_eq :
    generate_mitre_like_matrix ⟨mt_key42_twisted, 60⟩ =
      (df_mitre_table, ⟨mt_key42_twisted, 109⟩) := rfl

/-- The script-level coverage table as a literal. -/
theorem df_mitre_eq : df_mitre = df_mitre_table := by
  unfold df_mitre
  rw [rng_after_threats_eq, mitre_run1_eq]

/-- The global random state after the coverage generator, as a literal. -/
theorem rng_after_mitre_eq : rng_after_mitre = ⟨mt_key42_twisted, 109⟩ := by
  unfold rng_after_mitre
  rw [rng_after_threats_eq, mitre_run1_eq]

/-- A second, successive invocation of the coverage generator: a different
literal table, consuming the stream up to pos 159. -/
theorem mitre_run2_eq :
    generate_mitre_like_matrix ⟨mt_key42_twisted, 109⟩ =
      (df_mitre_table2, ⟨mt_key42_twisted, 159⟩) := rfl

/-- The segment slices of the threat table as literals. -/
theorem df_seg_all_eq : df_seg "All" = df_threats_table := by
  unfold df_seg
  rw [df_threats_eq]
  rfl

/-- The Space Segment slice as a literal. -/
theorem df_seg_space_eq : df_seg "Space Segment" = df_seg_space_table := by
  unfold df_seg
  rw [df_threats_eq]
  rfl

/-- The Ground Segment slice as a literal. -/
theorem df_seg_ground_eq : df_seg "Ground Segment" = df_seg_ground_table := by
  unfold df_seg
  rw [df_threats_eq]
  rfl

/-- The Link Segment slice as a literal. -/
theorem df_seg_link_eq : df_seg "Link Segment" = df_seg_link_table := by
  unfold df_seg
  rw [df_threats_eq]
  rfl



/-!  Claim theorems.  -/

/-- C1: The threat taxonomy generator returns, for any incoming global random
state, a table of exactly 30 records, one per (ThreatName, CIADimension) pair
over the fixed 10 threat names and 3 CIA dimensions (in row-major order), and
every record has Likelihood and Impact in [1,4] and RiskScore = Likelihood
times Impact, hence RiskScore in [1,16]. -/
theorem threat_taxonomy_structure (g : MTState) :
    (generate_mock_sat_threat_data g).1.length = 30 ∧
    (generate_mock_sat_threat_data g).1.map (fun r => (r.threat, r.cia)) =
      (threats.map (fun t => cia_dim.map (fun d => (t, d)))).flatten ∧
    ∀ r ∈ (generate_mock_sat_threat_data g).1,
      1 ≤ r.likelihood ∧ r.likelihood ≤ 4 ∧ 1 ≤ r.impact ∧ r.impact ≤ 4 ∧
      r.riskScore = r.likelihood * r.impact ∧ 1 ≤ r.riskScore ∧ r.riskScore ≤ 16 := by
  rw [gen_threat_eq]
  decide

/-- C2: The threat taxonomy generator is deterministic given its fixed seed:
any two invocations, whatever the incoming global random states, return the
identical table (same records, same values, same order) and the identical
outgoing state. -/
theorem threat_generator_deterministic (g1 g2 : MTState) :
    generate_mock_sat_threat_data g1 = generate_mock_sat_threat_data g2 := by
  rw [gen_threat_eq g1, gen_threat_eq g2]

/-- C3 counterexample: on the program's own table (segment All) at threshold
1, the displayed high-risk table differs from the spec's stable descending
order (RiskScore descending, ties in original order), so the risk-threshold
operation does not perform a stable sort as claimed. -/
theorem high_risk_sort_not_stable :
    high_risk_sorted (df_seg "All") 1 ≠
      spec_stable_sorted_desc (high_risk (df_seg "All") 1) := by
  rw [df_seg_all_eq]
  decide

/-- C3 amended: for every segment the program offers and every threshold in
[1,16], the displayed high-risk table contains exactly the records with
RiskScore at least the threshold (as a permutation of the filtered table) and
is ordered by RiskScore descending; tie order is NOT the original order in
general (see the counterexample).  With threshold 16 every displayed record
has Likelihood = 4 and Impact = 4. -/
theorem high_risk_sorted_desc (seg : String) (hseg : seg ∈ segment_options)
    (t : Nat) (h1 : 1 ≤ t) (h16 : t ≤ 16) :
    (high_risk_sorted (df_seg seg) t).Perm (high_risk (df_seg seg) t) ∧
    sorted_desc_by_risk (high_risk_sorted (df_seg seg) t) = true ∧
    (t = 16 → ∀ r ∈ high_risk_sorted (df_seg seg) t,
      r.likelihood = 4 ∧ r.impact = 4) := by
  have key : ∀ u, u < 17 → 1 ≤ u → ∀ l ∈ [df_threats_table, df_seg_space_table,
      df_seg_ground_table, df_seg_link_table],
      (high_risk_sorted l u).Perm (high_risk l u) ∧
      sorted_desc_by_risk (high_risk_sorted l u) = true ∧
      (u = 16 → ∀ r ∈ high_risk_sorted l u, r.likelihood = 4 ∧ r.impact = 4) := by
    decide
  fin_cases hseg
  · rw [df_seg_all_eq]
    exact key t (Nat.lt_succ_of_le h16) h1 _ (by simp)
  · rw [df_seg_space_eq]
    exact key t (Nat.lt_succ_of_le h16) h1 _ (by simp)
  · rw [df_seg_ground_eq]
    exact key t (Nat.lt_succ_of_le h16) h1 _ (by simp)
  · rw [df_seg_link_eq]
    exact key t (Nat.lt_succ_of_le h16) h1 _ (by simp)

/-- C3 amended, witness at segment All and threshold 16. -/
theorem high_risk_sorted_desc_witness :
    "All" ∈ segment_options ∧ 1 ≤ 16 ∧ 16 ≤ 16 ∧
    ((high_risk_sorted (df_seg "All") 16).Perm (high_risk (df_seg "All") 16) ∧
     sorted_desc_by_risk (high_risk_sorted (df_seg "All") 16) = true ∧
     (16 = 16 → ∀ r ∈ high_risk_sorted (df_seg "All") 16,
       r.likelihood = 4 ∧ r.impact = 4)) :=
  ⟨by decide, by decide, by decide,
   high_risk_sorted_desc "All" (by decide) 16 (by decide) (by decide)⟩

/-- C4: The coverage generator is unseeded, so its output depends on the
incoming global state: invoked twice in succession (from the state the
program reaches after the threat generator), the two runs return different
coverage tables; each run assigns every record a CoverageLevel drawn from
the three levels None, Partial, Good. -/
theorem coverage_generator_unseeded :
    (generate_mitre_like_matrix rng_after_threats).1 ≠
      (generate_mitre_like_matrix rng_after_mitre).1 ∧
    (∀ r ∈ (generate_mitre_like_matrix rng_after_threats).1,
        r.coverage ∈ ["None", "Partial", "Good"]) ∧
    (∀ r ∈ (generate_mitre_like_matrix rng_after_mitre).1,
        r.coverage ∈ ["None", "Partial", "Good"]) := by
  rw [rng_after_threats_eq, rng_after_mitre_eq, mitre_run1_eq, mitre_run2_eq]
  decide

/-- C5: generate_orbit_3d returns, for nonnegative altitude and at least two
points, exactly N points per coordinate, the i-th point being
(r cos theta_i, r sin theta_i, 0) with theta_i = i * (2 pi / (N-1)) uniformly
spaced over [0, 2 pi] inclusive and r = R_EARTH + altitude_km * 1000; the
first and last points coincide, and every point lies at distance r from the
origin with z = 0. -/
theorem generate_orbit_3d_spec (altitude_km : ℝ) (N : Nat)
    (halt : 0 ≤ altitude_km) (hN : 2 ≤ N) :
    (generate_orbit_3d altitude_km N).1.length = N ∧
    (generate_orbit_3d altitude_km N).2.1.length = N ∧
    (generate_orbit_3d altitude_km N).2.2.length = N ∧
    (∀ i, i < N →
      (generate_orbit_3d altitude_km N).1.getD i 0 =
        (R_EARTH + altitude_km * 1000) * Real.cos ((i : ℝ) * (2 * Real.pi / ((N : ℝ) - 1))) ∧
      (generate_orbit_3d altitude_km N).2.1.getD i 0 =
        (R_EARTH + altitude_km * 1000) * Real.sin ((i : ℝ) * (2 * Real.pi / ((N : ℝ) - 1))) ∧
      (generate_orbit_3d altitude_km N).2.2.getD i 0 = 0) ∧
    ((generate_orbit_3d altitude_km N).1.getD 0 0 =
        (generate_orbit_3d altitude_km N).1.getD (N - 1) 0 ∧
      (generate_orbit_3d altitude_km N).2.1.getD 0 0 =
        (generate_orbit_3d altitude_km N).2.1.getD (N - 1) 0 ∧
      (generate_orbit_3d altitude_km N).2.2.getD 0 0 =
        (generate_orbit_3d altitude_km N).2.2.getD (N - 1) 0) ∧
    (∀ i, i < N →
      Real.sqrt (((generate_orbit_3d altitude_km N).1.getD i 0) ^ 2 +
          ((generate_orbit_3d altitude_km N).2.1.getD i 0) ^ 2 +
          ((generate_orbit_3d altitude_km N).2.2.getD i 0) ^ 2) =
        R_EARTH + altitude_km * 1000) := by
  have hr : (0 : ℝ) ≤ R_EARTH + altitude_km * 1000 := by
    unfold R_EARTH
    nlinarith
  have hx : ∀ i, i < N → (generate_orbit_3d altitude_km N).1.getD i 0 =
      (R_EARTH + altitude_km * 1000) * Real.cos ((i : ℝ) * (2 * Real.pi / ((N : ℝ) - 1))) := by
    intro i hi
    simp only [generate_orbit_3d, List.map_map, List.getD_eq_getElem?_getD,
      List.getElem?_map, List.getElem?_range hi, Option.map_some', Option.getD_some,
      Function.comp_apply]
  have hy : ∀ i, i < N → (generate_orbit_3d altitude_km N).2.1.getD i 0 =
      (R_EARTH + altitude_km * 1000) * Real.sin ((i : ℝ) * (2 * Real.pi / ((N : ℝ) - 1))) := by
    intro i hi
    simp only [generate_orbit_3d, List.map_map, List.getD_eq_getElem?_getD,
      List.getElem?_map, List.getElem?_range hi, Option.map_some', Option.getD_some,
      Function.comp_apply]
  have hz : ∀ i, i < N → (generate_orbit_3d altitude_km N).2.2.getD i 0 = 0 := by
    intro i hi
    simp only [generate_orbit_3d, List.map_map, List.getD_eq_getElem?_getD,
      List.getElem?_map, List.getElem?_range hi, Option.map_some', Option.getD_some,
      Function.comp_apply]
  have hNR : ((N : ℝ) - 1) ≠ 0 := by
    have : (2 : ℝ) ≤ (N : ℝ) := by exact_mod_cast hN
    nlinarith
  have hlast : ((N - 1 : Nat) : ℝ) * (2 * Real.pi / ((N : ℝ) - 1)) = 2 * Real.pi := by
    have hcast : ((N - 1 : Nat) : ℝ) = (N : ℝ) - 1 := by
      have h1 : (1 : Nat) ≤ N := le_trans (by norm_num) hN
      push_cast [h1]
      ring
    rw [hcast]
    field_simp
  refine ⟨by simp [generate_orbit_3d], by simp [generate_orbit_3d],
    by simp [generate_orbit_3d], fun i hi => ⟨hx i hi, hy i hi, hz i hi⟩, ?_, ?_⟩
  · have h0 : 0 < N := lt_of_lt_of_le (by norm_num) hN
    have hN1 : N - 1 < N := Nat.sub_lt h0 (by norm_num)
    refine ⟨?_, ?_, ?_⟩
    · rw [hx 0 h0, hx (N - 1) hN1, hlast]
      norm_num [Real.cos_two_pi]
    · rw [hy 0 h0, hy (N - 1) hN1, hlast]
      norm_num [Real.sin_two_pi]
    · rw [hz 0 h0, hz (N - 1) hN1]
  · intro i hi
    rw [hx i hi, hy i hi, hz i hi]
    have hpyth := Real.sin_sq_add_cos_sq ((i : ℝ) * (2 * Real.pi / ((N : ℝ) - 1)))
    have hsum : ((R_EARTH + altitude_km * 1000) *
          Real.cos ((i : ℝ) * (2 * Real.pi / ((N : ℝ) - 1)))) ^ 2 +
        ((R_EARTH + altitude_km * 1000) *
          Real.sin ((i : ℝ) * (2 * Real.pi / ((N : ℝ) - 1)))) ^ 2 + (0 : ℝ) ^ 2 =
        (R_EARTH + altitude_km * 1000) ^ 2 := by
      nlinarith [hpyth]
    rw [hsum, Real.sqrt_sq hr]

/-- C5, witness at altitude 0 and N = 2. -/
theorem generate_orbit_3d_spec_witness :
    (0 : ℝ) ≤ 0 ∧ 2 ≤ 2 ∧
    ((generate_orbit_3d 0 2).1.length = 2 ∧
     (generate_orbit_3d 0 2).2.1.length = 2 ∧
     (generate_orbit_3d 0 2).2.2.length = 2 ∧
     (∀ i, i < 2 →
       (generate_orbit_3d 0 2).1.getD i 0 =
         (R_EARTH + 0 * 1000) * Real.cos ((i : ℝ) * (2 * Real.pi / ((2 : ℝ) - 1))) ∧
       (generate_orbit_3d 0 2).2.1.getD i 0 =
         (R_EARTH + 0 * 1000) * Real.sin ((i : ℝ) * (2 * Real.pi / ((2 : ℝ) - 1))) ∧
       (generate_orbit_3d 0 2).2.2.getD i 0 = 0) ∧
     ((generate_orbit_3d 0 2).1.getD 0 0 = (generate_orbit_3d 0 2).1.getD (2 - 1) 0 ∧
      (generate_orbit_3d 0 2).2.1.getD 0 0 = (generate_orbit_3d 0 2).2.1.getD (2 - 1) 0 ∧
      (generate_orbit_3d 0 2).2.2.getD 0 0 = (generate_orbit_3d 0 2).2.2.getD (2 - 1) 0) ∧
     (∀ i, i < 2 →
       Real.sqrt (((generate_orbit_3d 0 2).1.getD i 0) ^ 2 +
           ((generate_orbit_3d 0 2).2.1.getD i 0) ^ 2 +
           ((generate_orbit_3d 0 2).2.2.getD i 0) ^ 2) =
         R_EARTH + 0 * 1000)) :=
  ⟨le_refl 0, le_refl 2, generate_orbit_3d_spec 0 2 (le_refl 0) (le_refl 2)⟩

/-- C6: for altitudes at least 0 (km above the surface), the period is
strictly positive and strictly increasing in altitude, and the velocity is
strictly positive and strictly decreasing in altitude. -/
theorem period_velocity_monotone (a b : ℝ) (ha : 0 ≤ a) (hab : a < b) :
    0 < period a ∧ period a < period b ∧ 0 < velocity a ∧ velocity b < velocity a := by
  have hA : (0 : ℝ) < R_EARTH + a * 1000 := by
    unfold R_EARTH
    nlinarith
  have hB : (0 : ℝ) < R_EARTH + b * 1000 := by
    unfold R_EARTH
    nlinarith
  have hAB : R_EARTH + a * 1000 < R_EARTH + b * 1000 := by nlinarith
  have hmu : (0 : ℝ) < MU_EARTH := by
    unfold MU_EARTH
    norm_num
  unfold period velocity kepler_period orbital_velocity
  have h2pi : (0 : ℝ) < 2 * Real.pi := by positivity
  refine ⟨?_, ?_, ?_, ?_⟩
  · exact mul_pos h2pi (Real.sqrt_pos.mpr (div_pos (pow_pos hA 3) hmu))
  · have h3 : (R_EARTH + a * 1000) ^ 3 < (R_EARTH + b * 1000) ^ 3 :=
      pow_lt_pow_left₀ hAB hA.le (by norm_num)
    have hdiv : (R_EARTH + a * 1000) ^ 3 / MU_EARTH < (R_EARTH + b * 1000) ^ 3 / MU_EARTH :=
      (div_lt_div_iff_of_pos_right hmu).mpr h3
    exact mul_lt_mul_of_pos_left
      (Real.sqrt_lt_sqrt (le_of_lt (div_pos (pow_pos hA 3) hmu)) hdiv) h2pi
  · exact Real.sqrt_pos.mpr (div_pos hmu hA)
  · exact Real.sqrt_lt_sqrt (le_of_lt (div_pos hmu hB))
      (div_lt_div_of_pos_left hmu hA hAB)

/-- C6, witness at altitudes 0 and 1. -/
theorem period_velocity_monotone_witness :
    (0 : ℝ) ≤ 0 ∧ (0 : ℝ) < 1 ∧
    (0 < period 0 ∧ period 0 < period 1 ∧ 0 < velocity 0 ∧ velocity 1 < velocity 0) :=
  ⟨le_refl 0, by norm_num, period_velocity_monotone 0 1 (le_refl 0) (by norm_num)⟩

/-- C7: the pivoted coverage matrix of the program's coverage table is a full
6-row by 6-column table indexed by Technique and Tactic: every cell is
populated, each matching exactly one source record, the cell value is the
mean CoverageScore of the matching records (hence the single record's score
under None to 0, Partial to 1, Good to 2), and every cell is 0, 1 or 2. -/
theorem coverage_pivot_matrix :
    (pivot_index df_mitre).length = 6 ∧
    (pivot_columns df_mitre).length = 6 ∧
    ∀ tech ∈ pivot_index df_mitre, ∀ tac ∈ pivot_columns df_mitre,
      (df_mitre.filter (fun r => r.technique == tech && r.tactic == tac)).length = 1 ∧
      pivot_cell df_mitre tech tac ∈ [some (0 : ℚ), some 1, some 2] ∧
      pivot_cell df_mitre tech tac =
        ((df_mitre.filter (fun r => r.technique == tech && r.tactic == tac)).head?.bind
          (fun r => (coverage_map r.coverage).map (fun n => (n : ℚ)))) := by
  simp only [df_mitre_eq]
  with_unfolding_all decide

/-- C8: segment filtering is a pure filter: a record is in the Space, Ground
or Link slice exactly when it is in the threat table with its name in that
segment's fixed name set; the All selection is the whole table; the Space
slice has exactly 9 records and All has all 30. -/
theorem segment_filter_pure :
    (∀ r : ThreatRecord, r ∈ df_seg "Space Segment" ↔
        r ∈ df_threats ∧ r.threat ∈ space_segment_names) ∧
    (∀ r : ThreatRecord, r ∈ df_seg "Ground Segment" ↔
        r ∈ df_threats ∧ r.threat ∈ ground_segment_names) ∧
    (∀ r : ThreatRecord, r ∈ df_seg "Link Segment" ↔
        r ∈ df_threats ∧ r.threat ∈ link_segment_names) ∧
    df_seg "All" = df_threats ∧
    (df_seg "Space Segment").length = 9 ∧
    (df_seg "All").length = 30 := by
  refine ⟨?_, ?_, ?_, rfl, ?_, ?_⟩
  · intro r
    rw [show df_seg "Space Segment" =
        df_threats.filter (fun r => space_segment_names.contains r.threat) from rfl]
    simp [List.mem_filter]
  · intro r
    rw [show df_seg "Ground Segment" =
        df_threats.filter (fun r => ground_segment_names.contains r.threat) from rfl]
    simp [List.mem_filter]
  · intro r
    rw [show df_seg "Link Segment" =
        df_threats.filter (fun r => link_segment_names.contains r.threat) from rfl]
    simp [List.mem_filter]
  · rw [df_seg_space_eq]
    decide
  · rw [df_seg_all_eq]
    decide

/-- C9: the link-budget estimate equals eirp - path_loss + rx_gain -
sys_loss - noise_figure for all inputs, is linear with coefficient +1 in
eirp and rx_gain and -1 in the other three, and at (45, 190, 35, 3, 4)
equals -117. -/
theorem carrier_to_noise_linear :
    (∀ e p g s n : ℝ, satellite_link_budget e p g s n = e - p + g - s - n) ∧
    (∀ e p g s n d : ℝ,
      satellite_link_budget (e + d) p g s n = satellite_link_budget e p g s n + d ∧
      satellite_link_budget e (p + d) g s n = satellite_link_budget e p g s n - d ∧
      satellite_link_budget e p (g + d) s n = satellite_link_budget e p g s n + d ∧
      satellite_link_budget e p g (s + d) n = satellite_link_budget e p g s n - d ∧
      satellite_link_budget e p g s (n + d) = satellite_link_budget e p g s n - d) ∧
    satellite_link_budget 45 190 35 3 4 = -117 := by
  unfold satellite_link_budget
  refine ⟨fun e p g s n => rfl,
    fun e p g s n d => ⟨by ring, by ring, by ring, by ring, by ring⟩, by norm_num⟩

/-- C10: because the threat generator reseeds the shared global random
source, a full pipeline run (threat generation then coverage generation)
produces the identical coverage table whatever initial global state each run
starts from. -/
theorem pipeline_coverage_reproducible (g1 g2 : MTState) :
    (generate_mitre_like_matrix (generate_mock_sat_threat_data g1).2).1 =
    (generate_mitre_like_matrix (generate_mock_sat_threat_data g2).2).1 := by
  rw [gen_threat_eq g1, gen_threat_eq g2]


end SatSoc
